import Mathlib

/-!
Shallow embedding of the asynchronous-content resolution engine of
src/tachys/src/async_views/mod.rs (the Suspend and SuspenseBoundary nodes),
together with theorems settling the specification claims about it.

Modelling conventions:
- A wrapped asynchronous computation is a `Fut`: its eventual value together
  with whether it is already complete at the moment it is polled synchronously
  (`now_or_never`).  Awaiting it in a background task always yields `value`.
- Side effects (polling, building, mounting, unmounting, spawning) are recorded
  as explicit event traces returned alongside the new state, so that temporal
  claims ("fallback first, exactly one swap", "polled exactly once") become
  statements about traces.
- Background tasks are reified: an operation returns the list of tasks it
  spawned, and a separate `run` function gives the effect of the scheduler
  later running such a task against the shared state.
-/

namespace Tachys

/-- The wrapped asynchronous computation of a Suspend node (`Fut` in the
source): `ready` says whether it is already complete when polled
synchronously at build/emit time, `value` is its eventual output. -/
structure Fut (β : Type) where
  ready : Bool
  value : β
deriving DecidableEq

/-- The single synchronous poll `fut.as_mut().now_or_never()` from the
source: yields the resolved value exactly when the computation is already
complete. -/
def Fut.now_or_never (f : Fut β) : Option β :=
  if f.ready then some f.value else none

/-- Observable events of the Suspend node operations. -/
inductive Ev (α β : Type) : Type
  | pollFut
  | buildFallback (a : α)
  | buildReady (b : β)
  | hydrateFallback (a : α)
  | hydrateReady (b : β)
  | mountFallback (a : α)
  | mountReady (b : β)
  | unmountFallback (a : α)
  | unmountReady (b : β)
  | rebuildFallbackInPlace (prev cur : α)
  | rebuildReadyInPlace (prev cur : β)
  | spawnTask
  | awaitFut
deriving DecidableEq

/-- The shared Fallback/Ready state container of a Suspend node
(`EitherState<Fal::State, Output::State>` behind `Arc<RwLock<...>>` in the
source): exactly one of the two branches is materialized. -/
inductive EitherSt (α β : Type) : Type
  | fallback (a : α)
  | ready (b : β)
deriving DecidableEq

/-- Modelled from the spec: `Either`/`EitherState` (view/either.rs) is not
under src/.  Building an either value materializes exactly the branch it
carries (spec, section 3: the container holds the materialized representation
of the active branch). -/
def eitherBuild : Sum α β → EitherSt α β × List (Ev α β)
  | Sum.inl a => (EitherSt.fallback a, [Ev.buildFallback a])
  | Sum.inr b => (EitherSt.ready b, [Ev.buildReady b])

/-- Modelled from the spec: hydration of an either value attaches the active
branch to existing markup instead of building it afresh (spec, section 4.1,
hydration attach). -/
def eitherHydrate : Sum α β → EitherSt α β × List (Ev α β)
  | Sum.inl a => (EitherSt.fallback a, [Ev.hydrateFallback a])
  | Sum.inr b => (EitherSt.ready b, [Ev.hydrateReady b])

/-- Modelled from the spec: rebuilding the state container with an either
value (view/either.rs is not under src/).  When the branch changes, the new
representation is built, mounted before the node marker, and the old branch
is unmounted (spec, section 4.1: "builds the ready representation, mounts it
before the same position marker, marks RenderMode=Ready, and unmounts the
fallback"); when the branch is unchanged, the existing representation is
rebuilt in place. -/
def eitherRebuild : Sum α β → EitherSt α β → EitherSt α β × List (Ev α β)
  | Sum.inl a, EitherSt.fallback a0 =>
      (EitherSt.fallback a, [Ev.rebuildFallbackInPlace a0 a])
  | Sum.inl a, EitherSt.ready b0 =>
      (EitherSt.fallback a,
       [Ev.buildFallback a, Ev.mountFallback a, Ev.unmountReady b0])
  | Sum.inr b, EitherSt.fallback a0 =>
      (EitherSt.ready b,
       [Ev.buildReady b, Ev.mountReady b, Ev.unmountFallback a0])
  | Sum.inr b, EitherSt.ready b0 =>
      (EitherSt.ready b, [Ev.rebuildReadyInPlace b0 b])

/-- The Suspend node of the source: the compile-time TRANSITION flag, a
fallback value and the wrapped computation. -/
structure Suspend (α β : Type) where
  transition : Bool
  fallback : α
  fut : Fut β
deriving DecidableEq

/-- A background task spawned by Suspend build/hydrate/rebuild: it owns the
moved wrapped computation, which it will await exactly once. -/
structure SuspendTask (β : Type) where
  fut : Fut β
deriving DecidableEq

/-- Result of a Suspend build or hydrate: the initial shared state, the
synchronous event trace, and the background tasks that were spawned. -/
structure BuildResult (α β : Type) where
  state : EitherSt α β
  trace : List (Ev α β)
  tasks : List (SuspendTask β)
deriving DecidableEq

/-- Embedding of `Suspend::build` (src/tachys/src/async_views/mod.rs lines
291-323): poll the computation once; if already complete start in the ready
branch, otherwise build the fallback and spawn exactly one background task
holding the moved computation. -/
def Suspend.build (s : Suspend α β) : BuildResult α β :=
  let initial : Sum α β :=
    match s.fut.now_or_never with
    | some resolved => Sum.inr resolved
    | none => Sum.inl s.fallback
  let initiallyPending := initial.isLeft
  let built := eitherBuild initial
  { state := built.1
    trace :=
      Ev.pollFut :: built.2 ++
        (if initiallyPending then [Ev.spawnTask] else [])
    tasks := if initiallyPending then [SuspendTask.mk s.fut] else [] }

/-- Embedding of `Suspend::hydrate` (lines 422-460): identical to build
except the initial branch is attached to existing markup via hydration. -/
def Suspend.hydrate (s : Suspend α β) : BuildResult α β :=
  let initial : Sum α β :=
    match s.fut.now_or_never with
    | some resolved => Sum.inr resolved
    | none => Sum.inl s.fallback
  let initiallyPending := initial.isLeft
  let hydrated := eitherHydrate initial
  { state := hydrated.1
    trace :=
      Ev.pollFut :: hydrated.2 ++
        (if initiallyPending then [Ev.spawnTask] else [])
    tasks := if initiallyPending then [SuspendTask.mk s.fut] else [] }

/-- Effect of the scheduler running a Suspend background task (the spawned
closure in build/hydrate/rebuild): await the moved computation, then rebuild
the shared state with the Right (ready) value. -/
def SuspendTask.run (t : SuspendTask β) (st : EitherSt α β) :
    EitherSt α β × List (Ev α β) :=
  let r := eitherRebuild (Sum.inr t.fut.value) st
  (r.1, Ev.awaitFut :: r.2)

/-- Embedding of `Suspend::rebuild` (lines 325-341): when TRANSITION is
false, immediately rebuild the shared state with the Left (fallback) value;
in either case spawn one background task that rebuilds with the resolved
value once the new computation completes. -/
def Suspend.rebuild (s : Suspend α β) (st : EitherSt α β) :
    EitherSt α β × List (Ev α β) × List (SuspendTask β) :=
  if s.transition then
    (st, [Ev.spawnTask], [SuspendTask.mk s.fut])
  else
    let r := eitherRebuild (Sum.inl s.fallback) st
    (r.1, r.2 ++ [Ev.spawnTask], [SuspendTask.mk s.fut])

/-- A piece of synchronously emitted markup: either the fallback markup of a
node or the ready markup of a resolved value. -/
inductive Html (α β : Type) : Type
  | fallbackHtml (a : α)
  | readyHtml (b : β)
deriving DecidableEq

/-- Embedding of `Suspend::to_html_with_buf` (lines 369-372): it always
renders `Either::Left(self.fallback)`, emitting the fallback markup into the
buffer; the wrapped computation is never polled on this path, so the event
trace is empty. -/
def Suspend.to_html_with_buf (s : Suspend α β) :
    List (Html α β) × List (Ev α β) :=
  ([Html.fallbackHtml s.fallback], [])

/-- A chunk recorded by the stream builder: inline ready markup, fallback
markup bracketed by boundary markers that carry a fragment identity, or a
registered deferred fragment tagged with its identity. -/
inductive Chunk (α β : Type) : Type
  | inlineReady (b : β)
  | fallbackBracketed (id : Nat) (a : α)
  | deferredOutOfOrder (id : Nat) (fut : Fut β)
  | deferredInOrder (id : Nat) (fut : Fut β)
deriving DecidableEq

/-- Modelled from the spec: the Stream Chunker (`StreamBuilder`, ssr module)
is not under src/.  It maintains a monotonic counter issuing a fresh Boundary
Identity per deferred fragment, and a list of chunks in emission order
(spec, section 4.3). -/
structure StreamBuilder (α β : Type) where
  counter : Nat
  chunks : List (Chunk α β)
deriving DecidableEq

/-- Modelled from the spec: `buf.next_id()` advances the monotonic counter to
a fresh Boundary Identity for this node. -/
def StreamBuilder.next_id (buf : StreamBuilder α β) : StreamBuilder α β :=
  { buf with counter := buf.counter + 1 }

/-- Modelled from the spec: `buf.clone_id()` reads the currently assigned
Boundary Identity. -/
def StreamBuilder.clone_id (buf : StreamBuilder α β) : Nat :=
  buf.counter

/-- Modelled from the spec: `buf.push_fallback(...)` writes the fallback
markup synchronously at the current stream position, bracketed by boundary
markers carrying the assigned identity (spec, section 4.3, out-of-order
mode). -/
def StreamBuilder.push_fallback (buf : StreamBuilder α β) (a : α) :
    StreamBuilder α β :=
  { buf with
    chunks := buf.chunks ++ [Chunk.fallbackBracketed buf.counter a] }

/-- Modelled from the spec: `buf.push_async_out_of_order(...)` registers one
deferred fragment, tagged with the assigned identity, whose resolved content
is appended to the tail of the stream once ready (spec, section 4.3). -/
def StreamBuilder.push_async_out_of_order (buf : StreamBuilder α β)
    (fut : Fut β) : StreamBuilder α β :=
  { buf with
    chunks := buf.chunks ++ [Chunk.deferredOutOfOrder buf.counter fut] }

/-- Modelled from the spec: `buf.push_async(...)` suspends in-order emission
at this position, registering a deferred fragment produced under the cloned
identity whose markup is written at the exact original position (spec,
section 4.3, in-order mode). -/
def StreamBuilder.push_async (buf : StreamBuilder α β) (id : Nat)
    (fut : Fut β) : StreamBuilder α β :=
  { buf with chunks := buf.chunks ++ [Chunk.deferredInOrder id fut] }

/-- Embedding of `Suspend::to_html_async_with_buf` (lines 374-420): advance
the identity counter, poll the computation once; if already complete emit the
ready markup inline at the current position; otherwise, out of order, push
the bracketed fallback markup followed by one registered deferred fragment
under the same identity, and in order, register one deferred in-order
fragment. -/
def Suspend.to_html_async_with_buf (outOfOrder : Bool) (s : Suspend α β)
    (buf : StreamBuilder α β) : StreamBuilder α β × List (Ev α β) :=
  let buf := buf.next_id
  match s.fut.now_or_never with
  | some resolved =>
      ({ buf with chunks := buf.chunks ++ [Chunk.inlineReady resolved] },
       [Ev.pollFut])
  | none =>
      let id := buf.clone_id
      if outOfOrder then
        ((buf.push_fallback s.fallback).push_async_out_of_order s.fut,
         [Ev.pollFut])
      else
        (buf.push_async id s.fut, [Ev.pollFut])

/-- The nested child content of a SuspenseBoundary, abstracted by the value
its asynchronous resolve operation eventually produces. -/
structure Chil (γ : Type) where
  resolvedValue : γ
deriving DecidableEq

/-- Observable events of the SuspenseBoundary node operations. -/
inductive BEv (φ γ : Type) : Type
  | logMsg (msg : String)
  | resolveChildrenStarted
  | createPlaceholder
  | buildFallback (f : φ)
  | mountFallbackBeforeMarker (f : φ)
  | unmountFallback (f : φ)
  | buildChildren (c : γ)
  | mountChildrenBeforeMarker (c : γ)
  | unmountChildren (c : γ)
  | rebuildChildrenInPlace (prev cur : γ)
  | spawnTask
  | awaitChildren
deriving DecidableEq

/-- Invoking resolve on the nested child content: yields the value the child
content resolves to, recording that the child resolution was started. -/
def Chil.resolve (φ : Type) (c : Chil γ) : γ × List (BEv φ γ) :=
  (c.resolvedValue, [BEv.resolveChildrenStarted])

/-- The SuspenseBoundary node of the source: the compile-time TRANSITION
flag, the `in_fallback` field, an optional (takeable) fallback, and the
nested child content. -/
structure SuspenseBoundary (φ γ : Type) where
  transition : Bool
  in_fallback : Bool
  fallback : Option φ
  children : Chil γ
deriving DecidableEq

/-- The shared inner state of a SuspenseBoundary
(`SuspenseBoundaryStateInner` in the source): the built fallback and the
optional built children. -/
structure BoundaryInner (φ γ : Type) where
  fallback : φ
  children : Option γ
deriving DecidableEq

/-- A background task spawned by SuspenseBoundary build/rebuild: it owns the
moved `children.resolve()` computation, abstracted by its eventual value. -/
structure BoundaryTask (γ : Type) where
  value : γ
deriving DecidableEq

/-- Embedding of `SuspenseBoundary::build` (lines 114-152): start resolving
the nested content, create the placeholder marker, build the fallback (the
program aborts when the fallback was already taken), and spawn one background
task; children start out absent. -/
def SuspenseBoundary.build (b : SuspenseBoundary φ γ) :
    Except String
      (BoundaryInner φ γ × List (BEv φ γ) × List (BoundaryTask γ)) :=
  let resolved := Chil.resolve φ b.children
  match b.fallback with
  | none =>
      Except.error
        "SuspenseBoundary tried to use fallback but it has already been taken"
  | some f =>
      Except.ok
        ({ fallback := f, children := none },
         [BEv.logMsg "building SuspenseBoundary"] ++ resolved.2 ++
           [BEv.createPlaceholder, BEv.buildFallback f, BEv.spawnTask],
         [BoundaryTask.mk resolved.1])

/-- Effect of the scheduler running a SuspenseBoundary background task (the
spawned closure in build/rebuild): await the child resolution; if children
are present in the shared state, rebuild them in place with the value;
otherwise build the new children, mount them before the marker, record them,
and unmount the fallback. -/
def BoundaryTask.run (t : BoundaryTask γ) (inner : BoundaryInner φ γ) :
    BoundaryInner φ γ × List (BEv φ γ) :=
  match inner.children with
  | some c =>
      ({ inner with children := some t.value },
       [BEv.awaitChildren, BEv.rebuildChildrenInPlace c t.value])
  | none =>
      ({ fallback := inner.fallback, children := some t.value },
       [BEv.awaitChildren, BEv.buildChildren t.value,
        BEv.mountChildrenBeforeMarker t.value,
        BEv.unmountFallback inner.fallback])

/-- Embedding of `SuspenseBoundary::rebuild` (lines 154-187): take the
current children out of the shared state; when TRANSITION is false, mount the
fallback before the marker and unmount the taken children; then start a new
child resolution and spawn one background task. -/
def SuspenseBoundary.rebuild (b : SuspenseBoundary φ γ)
    (inner : BoundaryInner φ γ) :
    BoundaryInner φ γ × List (BEv φ γ) × List (BoundaryTask γ) :=
  let oldChildren := inner.children
  let inner1 : BoundaryInner φ γ := { inner with children := none }
  let resolved := Chil.resolve φ b.children
  if b.transition then
    (inner1,
     [BEv.logMsg "rebuilding SuspenseBoundary"] ++ resolved.2 ++
       [BEv.spawnTask],
     [BoundaryTask.mk resolved.1])
  else
    let unmountEvs : List (BEv φ γ) :=
      match oldChildren with
      | some c => [BEv.unmountChildren c]
      | none => []
    (inner1,
     [BEv.logMsg "rebuilding SuspenseBoundary",
      BEv.mountFallbackBeforeMarker inner.fallback] ++ unmountEvs ++
       resolved.2 ++ [BEv.spawnTask],
     [BoundaryTask.mk resolved.1])

/-- Embedding of `SuspenseBoundary::resolve` (lines 200-206): resolving a
boundary returns the boundary itself immediately, awaiting nothing — a
parent boundary does not wait for a nested boundary to load. -/
def SuspenseBoundary.resolve (b : SuspenseBoundary φ γ) :
    SuspenseBoundary φ γ × List (BEv φ γ) :=
  (b, [])

/-- Outcome of invoking an operation that may abort the program. -/
inductive RunResult (ω : Type) : Type
  | panicked (msg : String)
  | completed (v : ω)
deriving DecidableEq

/-- Embedding of `SuspenseBoundary::try_build` (lines 189-191): `todo!()`,
aborts for every input. -/
def SuspenseBoundary.try_build (_b : SuspenseBoundary φ γ) :
    RunResult Unit :=
  RunResult.panicked "not yet implemented"

/-- Embedding of `SuspenseBoundary::try_rebuild` (lines 193-198): `todo!()`,
aborts for every input. -/
def SuspenseBoundary.try_rebuild (_b : SuspenseBoundary φ γ)
    (_st : Unit) : RunResult Unit :=
  RunResult.panicked "not yet implemented"

/-- Embedding of `SuspenseBoundary::to_html_with_buf` (lines 218-220):
`todo!()`, aborts for every input. -/
def SuspenseBoundary.to_html_with_buf (_b : SuspenseBoundary φ γ)
    (_buf : List (Html φ γ)) : RunResult (List (Html φ γ)) :=
  RunResult.panicked "not yet implemented"

/-- Embedding of `SuspenseBoundary::hydrate` (lines 222-228): `todo!()`,
aborts for every input. -/
def SuspenseBoundary.hydrate (_b : SuspenseBoundary φ γ) :
    RunResult (BoundaryInner φ γ) :=
  RunResult.panicked "not yet implemented"

/-- Embedding of `Suspend::try_build` (lines 343-345): `todo!()`, aborts for
every input. -/
def Suspend.try_build (_s : Suspend α β) : RunResult (BuildResult α β) :=
  RunResult.panicked "not yet implemented"

/-- Embedding of `Suspend::try_rebuild` (lines 347-352): `todo!()`, aborts
for every input. -/
def Suspend.try_rebuild (_s : Suspend α β) (_st : EitherSt α β) :
    RunResult Unit :=
  RunResult.panicked "not yet implemented"

/-- A sample Suspend node whose computation is already complete at build
time. -/
def sampleReady : Suspend Nat Nat :=
  { transition := false, fallback := 0, fut := { ready := true, value := 5 } }

/-- A sample Suspend node whose computation is pending at build time, under
the Replace policy. -/
def samplePending : Suspend Nat Nat :=
  { transition := false, fallback := 0, fut := { ready := false, value := 7 } }

/-- A sample Suspend node whose computation is pending at build time, under
the Transition policy. -/
def sampleTransition : Suspend Nat Nat :=
  { transition := true, fallback := 0, fut := { ready := false, value := 7 } }

/-- A sample empty stream builder. -/
def sampleBuf : StreamBuilder Nat Nat :=
  { counter := 0, chunks := [] }

/-- C1: for a Suspend node whose wrapped computation is already complete at
build time, the single synchronous poll returns the resolved value, both
direct build and hydration attach start in the ready branch, their traces
contain no fallback activity of any kind, and no background task is
scheduled. -/
theorem suspend_complete_fast_path (s : Suspend α β)
    (h : s.fut.ready = true) :
    s.fut.now_or_never = some s.fut.value ∧
    s.build.state = EitherSt.ready s.fut.value ∧
    s.build.trace = [Ev.pollFut, Ev.buildReady s.fut.value] ∧
    s.build.tasks = [] ∧
    s.hydrate.state = EitherSt.ready s.fut.value ∧
    s.hydrate.trace = [Ev.pollFut, Ev.hydrateReady s.fut.value] ∧
    s.hydrate.tasks = [] := by
  refine ⟨?_, ?_, ?_, ?_, ?_, ?_, ?_⟩ <;>
    simp [Suspend.build, Suspend.hydrate, Fut.now_or_never, h,
      eitherBuild, eitherHydrate]

/-- Witness for C1 at a concrete already-complete node. -/
theorem suspend_complete_fast_path_witness :
    sampleReady.fut.ready = true ∧
    (sampleReady.fut.now_or_never = some sampleReady.fut.value ∧
     sampleReady.build.state = EitherSt.ready sampleReady.fut.value ∧
     sampleReady.build.trace =
       [Ev.pollFut, Ev.buildReady sampleReady.fut.value] ∧
     sampleReady.build.tasks = [] ∧
     sampleReady.hydrate.state = EitherSt.ready sampleReady.fut.value ∧
     sampleReady.hydrate.trace =
       [Ev.pollFut, Ev.hydrateReady sampleReady.fut.value] ∧
     sampleReady.hydrate.tasks = []) :=
  ⟨rfl, suspend_complete_fast_path sampleReady rfl⟩

/-- C2: for a Suspend node whose wrapped computation is pending at build
time, direct build records the fallback state first and schedules exactly one
background task; running that task performs exactly one fallback-to-ready
swap (build ready, mount ready, unmount fallback); afterwards no background
task ever remounts the fallback on a ready state, and no Transition-policy
rebuild mounts the fallback — only a Replace-policy rebuild can. -/
theorem suspend_pending_build_one_swap (s : Suspend α β)
    (h : s.fut.ready = false) :
    s.build.state = EitherSt.fallback s.fallback ∧
    s.build.trace = [Ev.pollFut, Ev.buildFallback s.fallback, Ev.spawnTask] ∧
    s.build.tasks = [SuspendTask.mk s.fut] ∧
    (SuspendTask.mk s.fut).run s.build.state =
      (EitherSt.ready s.fut.value,
       [Ev.awaitFut, Ev.buildReady s.fut.value, Ev.mountReady s.fut.value,
        Ev.unmountFallback s.fallback]) ∧
    (∀ (t : SuspendTask β) (b : β) (a : α),
       Ev.mountFallback a ∉
         (t.run (EitherSt.ready b) : EitherSt α β × List (Ev α β)).2) ∧
    (∀ (s2 : Suspend α β) (st : EitherSt α β) (a : α),
       s2.transition = true → Ev.mountFallback a ∉ (s2.rebuild st).2.1) := by
  refine ⟨?_, ?_, ?_, ?_, ?_, ?_⟩
  · simp [Suspend.build, Fut.now_or_never, h, eitherBuild]
  · simp [Suspend.build, Fut.now_or_never, h, eitherBuild]
  · simp [Suspend.build, Fut.now_or_never, h, eitherBuild]
  · simp [Suspend.build, Fut.now_or_never, h, eitherBuild,
      SuspendTask.run, eitherRebuild]
  · intro t b a
    simp [SuspendTask.run, eitherRebuild]
  · intro s2 st a h2
    simp [Suspend.rebuild, h2]

/-- Witness for C2 at a concrete pending node. -/
theorem suspend_pending_build_one_swap_witness :
    samplePending.fut.ready = false ∧
    (samplePending.build.state = EitherSt.fallback samplePending.fallback ∧
     samplePending.build.trace =
       [Ev.pollFut, Ev.buildFallback samplePending.fallback, Ev.spawnTask] ∧
     samplePending.build.tasks = [SuspendTask.mk samplePending.fut] ∧
     (SuspendTask.mk samplePending.fut).run samplePending.build.state =
       (EitherSt.ready samplePending.fut.value,
        [Ev.awaitFut, Ev.buildReady samplePending.fut.value,
         Ev.mountReady samplePending.fut.value,
         Ev.unmountFallback samplePending.fallback]) ∧
     (∀ (t : SuspendTask Nat) (b : Nat) (a : Nat),
        Ev.mountFallback a ∉
          (t.run (EitherSt.ready b) : EitherSt Nat Nat × List (Ev Nat Nat)).2) ∧
     (∀ (s2 : Suspend Nat Nat) (st : EitherSt Nat Nat) (a : Nat),
        s2.transition = true → Ev.mountFallback a ∉ (s2.rebuild st).2.1)) :=
  ⟨rfl, suspend_pending_build_one_swap samplePending rfl⟩

/-- C3: Suspend rebuild under the Replace policy immediately rewrites the
shared state to the fallback branch, with the fallback rewrite preceding the
spawn of the single new resolution task; under the Transition policy the
shared state is left untouched and only the task is spawned, and when the
task later resolves it rebuilds the state directly to the new ready value
without mounting or building any fallback. -/
theorem suspend_rebuild_policy (s : Suspend α β) (st : EitherSt α β) :
    (s.transition = false →
       (s.rebuild st).1 = EitherSt.fallback s.fallback ∧
       (s.rebuild st).2.1 =
         (eitherRebuild (Sum.inl s.fallback) st).2 ++ [Ev.spawnTask] ∧
       (s.rebuild st).2.2 = [SuspendTask.mk s.fut]) ∧
    (s.transition = true →
       (s.rebuild st).1 = st ∧
       (s.rebuild st).2.1 = [Ev.spawnTask] ∧
       (s.rebuild st).2.2 = [SuspendTask.mk s.fut] ∧
       ((SuspendTask.mk s.fut).run st).1 = EitherSt.ready s.fut.value ∧
       (∀ a : α,
          Ev.mountFallback a ∉ ((SuspendTask.mk s.fut).run st).2 ∧
          Ev.buildFallback a ∉ ((SuspendTask.mk s.fut).run st).2)) := by
  constructor
  · intro h
    cases st <;> simp [Suspend.rebuild, h, eitherRebuild]
  · intro h
    refine ⟨?_, ?_, ?_, ?_, ?_⟩
    · simp [Suspend.rebuild, h]
    · simp [Suspend.rebuild, h]
    · simp [Suspend.rebuild, h]
    · cases st <;> simp [SuspendTask.run, eitherRebuild]
    · intro a
      cases st <;> simp [SuspendTask.run, eitherRebuild]

/-- Witness for C3 at a concrete Transition-policy node over a ready state. -/
theorem suspend_rebuild_policy_witness :
    (sampleTransition.transition = false →
       (sampleTransition.rebuild (EitherSt.ready 3)).1 =
         EitherSt.fallback sampleTransition.fallback ∧
       (sampleTransition.rebuild (EitherSt.ready 3)).2.1 =
         (eitherRebuild (Sum.inl sampleTransition.fallback)
             (EitherSt.ready 3)).2 ++ [Ev.spawnTask] ∧
       (sampleTransition.rebuild (EitherSt.ready 3)).2.2 =
         [SuspendTask.mk sampleTransition.fut]) ∧
    (sampleTransition.transition = true →
       (sampleTransition.rebuild (EitherSt.ready 3)).1 = EitherSt.ready 3 ∧
       (sampleTransition.rebuild (EitherSt.ready 3)).2.1 = [Ev.spawnTask] ∧
       (sampleTransition.rebuild (EitherSt.ready 3)).2.2 =
         [SuspendTask.mk sampleTransition.fut] ∧
       ((SuspendTask.mk sampleTransition.fut).run
           (EitherSt.ready 3 : EitherSt Nat Nat)).1 =
         EitherSt.ready sampleTransition.fut.value ∧
       (∀ a : Nat,
          Ev.mountFallback a ∉
            ((SuspendTask.mk sampleTransition.fut).run
                (EitherSt.ready 3 : EitherSt Nat Nat)).2 ∧
          Ev.buildFallback a ∉
            ((SuspendTask.mk sampleTransition.fut).run
                (EitherSt.ready 3 : EitherSt Nat Nat)).2)) :=
  suspend_rebuild_policy sampleTransition (EitherSt.ready 3)

/-- C4: evaluation of the code at the failing input — a Transition-policy
SuspenseBoundary currently showing resolved children (children value 1).
Rebuild takes the children out of the shared state; when the new resolution
(value 2) completes, the background task builds and mounts the new children
before the marker and unmounts the fallback, but no unmount of the old
children ever occurs in the rebuild trace or the task trace: the previously
mounted content is not swapped out, contradicting the claim that under the
Transition policy the current content is swapped once the new resolution
completes. -/
theorem boundary_transition_rebuild_never_unmounts_old :
    ((SuspenseBoundary.mk true false (some (0 : Nat))
          (Chil.mk (2 : Nat))).rebuild
        (BoundaryInner.mk 0 (some 1))).1 = BoundaryInner.mk 0 none ∧
    ((SuspenseBoundary.mk true false (some (0 : Nat))
          (Chil.mk (2 : Nat))).rebuild
        (BoundaryInner.mk 0 (some 1))).2.2 = [BoundaryTask.mk 2] ∧
    (BoundaryTask.mk (2 : Nat)).run
        (BoundaryInner.mk (0 : Nat) (none : Option Nat)) =
      (BoundaryInner.mk 0 (some 2),
       [BEv.awaitChildren, BEv.buildChildren 2,
        BEv.mountChildrenBeforeMarker 2, BEv.unmountFallback 0]) ∧
    BEv.unmountChildren 1 ∉
      ((SuspenseBoundary.mk true false (some (0 : Nat))
            (Chil.mk (2 : Nat))).rebuild
          (BoundaryInner.mk 0 (some 1))).2.1 ++
        ((BoundaryTask.mk (2 : Nat)).run
            (BoundaryInner.mk (0 : Nat) (none : Option Nat))).2 := by
  refine ⟨rfl, rfl, rfl, ?_⟩
  simp [SuspenseBoundary.rebuild, BoundaryTask.run, Chil.resolve]

/-- C5 counterexample: at a concrete SuspenseBoundary, the resolve operation
returns the boundary itself with an empty event trace — in particular it does
not invoke resolve on the nested content (no child-resolution event occurs),
contrary to the claim that resolve resolves by invoking resolve on its nested
content. -/
theorem boundary_resolve_counterexample :
    (SuspenseBoundary.mk false false (some (0 : Nat))
        (Chil.mk (7 : Nat))).resolve =
      (SuspenseBoundary.mk false false (some 0) (Chil.mk 7), []) ∧
    BEv.resolveChildrenStarted ∉
      ((SuspenseBoundary.mk false false (some (0 : Nat))
          (Chil.mk (7 : Nat))).resolve).2 :=
  ⟨rfl, by simp [SuspenseBoundary.resolve]⟩

/-- C5 amended: the resolve operation of a SuspenseBoundary completes
immediately, returning the boundary itself unchanged and awaiting nothing —
so an outer boundary never waits on suspense nested inside this one; the
delegation to the nested content's resolve operation happens in build, whose
trace records the child resolution being started and whose single background
task treats the resolved child content as one unit. -/
theorem boundary_resolve_delegation (b : SuspenseBoundary φ γ) (f : φ)
    (h : b.fallback = some f) :
    b.resolve = (b, []) ∧
    b.build = Except.ok
      ({ fallback := f, children := none },
       [BEv.logMsg "building SuspenseBoundary", BEv.resolveChildrenStarted,
        BEv.createPlaceholder, BEv.buildFallback f, BEv.spawnTask],
       [BoundaryTask.mk b.children.resolvedValue]) := by
  constructor
  · rfl
  · simp [SuspenseBoundary.build, h, Chil.resolve]

/-- Witness for C5's amended claim at a concrete boundary. -/
theorem boundary_resolve_delegation_witness :
    (SuspenseBoundary.mk false false (some (3 : Nat))
        (Chil.mk (7 : Nat))).fallback = some 3 ∧
    ((SuspenseBoundary.mk false false (some (3 : Nat))
        (Chil.mk (7 : Nat))).resolve =
      (SuspenseBoundary.mk false false (some 3) (Chil.mk 7), []) ∧
     (SuspenseBoundary.mk false false (some (3 : Nat))
        (Chil.mk (7 : Nat))).build = Except.ok
      ({ fallback := 3, children := none },
       [BEv.logMsg "building SuspenseBoundary", BEv.resolveChildrenStarted,
        BEv.createPlaceholder, BEv.buildFallback 3, BEv.spawnTask],
       [BoundaryTask.mk 7])) :=
  ⟨rfl, boundary_resolve_delegation _ 3 rfl⟩

/-- C6: the wrapped computation of a Suspend node is consumed at most once
per build cycle — both build and hydrate poll exactly once synchronously
(their traces contain exactly one poll, at the start), the computation is
moved into exactly one background task precisely when that poll reports
incomplete, and a background task never polls synchronously: it awaits the
moved computation exactly once. -/
theorem suspend_fut_consumed_once (s : Suspend α β) :
    (s.fut.ready = true →
       s.build.trace = [Ev.pollFut, Ev.buildReady s.fut.value] ∧
       s.build.tasks = [] ∧
       s.hydrate.trace = [Ev.pollFut, Ev.hydrateReady s.fut.value] ∧
       s.hydrate.tasks = []) ∧
    (s.fut.ready = false →
       s.build.trace =
         [Ev.pollFut, Ev.buildFallback s.fallback, Ev.spawnTask] ∧
       s.build.tasks = [SuspendTask.mk s.fut] ∧
       s.hydrate.trace =
         [Ev.pollFut, Ev.hydrateFallback s.fallback, Ev.spawnTask] ∧
       s.hydrate.tasks = [SuspendTask.mk s.fut]) ∧
    (∀ (t : SuspendTask β) (st : EitherSt α β),
       (t.run st).2 = Ev.awaitFut :: (eitherRebuild (Sum.inr t.fut.value) st).2 ∧
       Ev.pollFut ∉ (t.run st).2 ∧
       Ev.awaitFut ∉ (eitherRebuild (Sum.inr t.fut.value) st).2) := by
  refine ⟨?_, ?_, ?_⟩
  · intro h
    refine ⟨?_, ?_, ?_, ?_⟩ <;>
      simp [Suspend.build, Suspend.hydrate, Fut.now_or_never, h,
        eitherBuild, eitherHydrate]
  · intro h
    refine ⟨?_, ?_, ?_, ?_⟩ <;>
      simp [Suspend.build, Suspend.hydrate, Fut.now_or_never, h,
        eitherBuild, eitherHydrate]
  · intro t st
    refine ⟨rfl, ?_, ?_⟩ <;> cases st <;>
      simp [SuspendTask.run, eitherRebuild]

/-- Witness for C6 at a concrete pending node. -/
theorem suspend_fut_consumed_once_witness :
    (samplePending.fut.ready = true →
       samplePending.build.trace =
         [Ev.pollFut, Ev.buildReady samplePending.fut.value] ∧
       samplePending.build.tasks = [] ∧
       samplePending.hydrate.trace =
         [Ev.pollFut, Ev.hydrateReady samplePending.fut.value] ∧
       samplePending.hydrate.tasks = []) ∧
    (samplePending.fut.ready = false →
       samplePending.build.trace =
         [Ev.pollFut, Ev.buildFallback samplePending.fallback,
          Ev.spawnTask] ∧
       samplePending.build.tasks = [SuspendTask.mk samplePending.fut] ∧
       samplePending.hydrate.trace =
         [Ev.pollFut, Ev.hydrateFallback samplePending.fallback,
          Ev.spawnTask] ∧
       samplePending.hydrate.tasks = [SuspendTask.mk samplePending.fut]) ∧
    (∀ (t : SuspendTask Nat) (st : EitherSt Nat Nat),
       (t.run st).2 =
         Ev.awaitFut :: (eitherRebuild (Sum.inr t.fut.value) st).2 ∧
       Ev.pollFut ∉ (t.run st).2 ∧
       Ev.awaitFut ∉ (eitherRebuild (Sum.inr t.fut.value) st).2) :=
  suspend_fut_consumed_once samplePending

/-- C7: out-of-order streaming of a Suspend node — when the computation is
pending at emit time, the bracketed fallback markup is appended synchronously
at the current stream position carrying the freshly allocated identity, and
exactly one deferred fragment carrying that same identity is registered right
after it; the counter has advanced by one and the computation was polled
once.  When the computation is already complete at emit time, the ready
markup is emitted inline at the current position instead. -/
theorem suspend_stream_chunks (s : Suspend α β) (buf : StreamBuilder α β) :
    (s.fut.ready = false →
       (Suspend.to_html_async_with_buf true s buf).1.chunks =
         buf.chunks ++
           [Chunk.fallbackBracketed (buf.counter + 1) s.fallback,
            Chunk.deferredOutOfOrder (buf.counter + 1) s.fut] ∧
       (Suspend.to_html_async_with_buf true s buf).1.counter =
         buf.counter + 1 ∧
       (Suspend.to_html_async_with_buf true s buf).2 = [Ev.pollFut]) ∧
    (s.fut.ready = true →
       (Suspend.to_html_async_with_buf true s buf).1.chunks =
         buf.chunks ++ [Chunk.inlineReady s.fut.value] ∧
       (Suspend.to_html_async_with_buf true s buf).2 = [Ev.pollFut]) := by
  constructor
  · intro h
    refine ⟨?_, ?_, ?_⟩ <;>
      simp [Suspend.to_html_async_with_buf, Fut.now_or_never, h,
        StreamBuilder.next_id, StreamBuilder.clone_id,
        StreamBuilder.push_fallback, StreamBuilder.push_async_out_of_order]
  · intro h
    refine ⟨?_, ?_⟩ <;>
      simp [Suspend.to_html_async_with_buf, Fut.now_or_never, h,
        StreamBuilder.next_id]

/-- Witness for C7 at a concrete pending node and empty stream builder. -/
theorem suspend_stream_chunks_witness :
    (samplePending.fut.ready = false →
       (Suspend.to_html_async_with_buf true samplePending sampleBuf).1.chunks =
         sampleBuf.chunks ++
           [Chunk.fallbackBracketed (sampleBuf.counter + 1)
              samplePending.fallback,
            Chunk.deferredOutOfOrder (sampleBuf.counter + 1)
              samplePending.fut] ∧
       (Suspend.to_html_async_with_buf true samplePending sampleBuf).1.counter =
         sampleBuf.counter + 1 ∧
       (Suspend.to_html_async_with_buf true samplePending sampleBuf).2 =
         [Ev.pollFut]) ∧
    (samplePending.fut.ready = true →
       (Suspend.to_html_async_with_buf true samplePending sampleBuf).1.chunks =
         sampleBuf.chunks ++ [Chunk.inlineReady samplePending.fut.value] ∧
       (Suspend.to_html_async_with_buf true samplePending sampleBuf).2 =
         [Ev.pollFut]) :=
  suspend_stream_chunks samplePending sampleBuf

/-- C8: every not-yet-implemented path — try_build and try_rebuild on both
Suspend and SuspenseBoundary, and streaming emission and hydration on a
SuspenseBoundary — aborts the program for every input. -/
theorem unimplemented_paths_abort (φ γ α β : Type) :
    (∀ b : SuspenseBoundary φ γ,
       b.try_build = RunResult.panicked "not yet implemented" ∧
       (∀ st : Unit,
          b.try_rebuild st = RunResult.panicked "not yet implemented") ∧
       (∀ buf : List (Html φ γ),
          b.to_html_with_buf buf =
            RunResult.panicked "not yet implemented") ∧
       b.hydrate = RunResult.panicked "not yet implemented") ∧
    (∀ s : Suspend α β,
       s.try_build = RunResult.panicked "not yet implemented" ∧
       (∀ st : EitherSt α β,
          s.try_rebuild st = RunResult.panicked "not yet implemented")) :=
  ⟨fun _ => ⟨rfl, fun _ => rfl, fun _ => rfl, rfl⟩,
   fun _ => ⟨rfl, fun _ => rfl⟩⟩

/-- C9: building a SuspenseBoundary whose fallback has already been taken
aborts with the programmer-error message; when the fallback is present,
build succeeds, constructing the fallback state synchronously (the fallback
is built before the background task is spawned, and the children start out
absent). -/
theorem boundary_build_requires_fallback (b : SuspenseBoundary φ γ) :
    (b.fallback = none →
       b.build = Except.error
         "SuspenseBoundary tried to use fallback but it has already been taken") ∧
    (∀ f : φ, b.fallback = some f →
       b.build = Except.ok
         ({ fallback := f, children := none },
          [BEv.logMsg "building SuspenseBoundary",
           BEv.resolveChildrenStarted, BEv.createPlaceholder,
           BEv.buildFallback f, BEv.spawnTask],
          [BoundaryTask.mk b.children.resolvedValue])) := by
  constructor
  · intro h
    simp [SuspenseBoundary.build, h, Chil.resolve]
  · intro f h
    simp [SuspenseBoundary.build, h, Chil.resolve]

/-- Witness for C9 at a boundary with its fallback taken and one with its
fallback present. -/
theorem boundary_build_requires_fallback_witness :
    (SuspenseBoundary.mk false false (none : Option Nat)
        (Chil.mk (7 : Nat))).build =
      Except.error
        "SuspenseBoundary tried to use fallback but it has already been taken" ∧
    (SuspenseBoundary.mk false false (some (4 : Nat))
        (Chil.mk (7 : Nat))).build =
      Except.ok
        ({ fallback := 4, children := none },
         [BEv.logMsg "building SuspenseBoundary",
          BEv.resolveChildrenStarted, BEv.createPlaceholder,
          BEv.buildFallback 4, BEv.spawnTask],
         [BoundaryTask.mk 7]) :=
  ⟨(boundary_build_requires_fallback
      (SuspenseBoundary.mk false false none (Chil.mk 7))).1 rfl,
   (boundary_build_requires_fallback
      (SuspenseBoundary.mk false false (some 4) (Chil.mk 7))).2 4 rfl⟩

/-- C10: the synchronous HTML emission of a Suspend node always emits exactly
the fallback markup, never emits ready markup, and never polls the wrapped
computation — for every node, including those whose computation is already
complete at emit time. -/
theorem suspend_sync_html_emits_fallback_only (s : Suspend α β) :
    s.to_html_with_buf = ([Html.fallbackHtml s.fallback], []) ∧
    (∀ b : β, Html.readyHtml b ∉ (s.to_html_with_buf).1) ∧
    Ev.pollFut ∉ (s.to_html_with_buf).2 := by
  refine ⟨rfl, ?_, ?_⟩ <;> simp [Suspend.to_html_with_buf]

end Tachys
